import Mathlib

/-!
Shallow embedding of the order-taking backend (Mastra tools of the
Latenitelubebot repository): the precondition-token validators, the
order-creation transaction, the two status-update paths (customer tool and
admin tool) and the admin stock-set operation, together with theorems about
the specification's claims.

Conventions of the embedding:
* JS numbers that hold money are modelled as rationals; integer ids,
  quantities and stock as `Int` (the code's zod schemas require integers).
* Database rows are records; the database is three lists (products, orders,
  orderItems).  A drizzle `update ... where` maps over the list; `returning`
  is the list of affected rows; `db.transaction` is modelled by
  `runTransaction`, which discards the written state when the body throws.
* A JS `Date` built from an invalid calendar string is `Invalid Date`, whose
  `getTime()` is NaN; NaN-valued ages are `Option` `none`, and every ordered
  comparison against NaN is false (`jsGtNaN`).
-/

/-- JS status strings of the six order states (ORDER_STATUSES in both
orderManagementTool.ts and adminOrderTool.ts). -/
inductive OrderStatus
  | placed
  | received
  | in_progress
  | out_for_delivery
  | delivered
  | cancelled
deriving DecidableEq, Repr

/-- The ORDER_STATUSES array. -/
def ORDER_STATUSES : List OrderStatus :=
  [.placed, .received, .in_progress, .out_for_delivery, .delivered, .cancelled]

/-- String value of a status, as stored in the varchar column. -/
def statusName : OrderStatus → String
  | .placed => "placed"
  | .received => "received"
  | .in_progress => "in_progress"
  | .out_for_delivery => "out_for_delivery"
  | .delivered => "delivered"
  | .cancelled => "cancelled"

/-- VALID_STATUS_TRANSITIONS of adminOrderTool.ts: the allowed-transitions
table of the admin workflow. -/
def VALID_STATUS_TRANSITIONS : OrderStatus → List OrderStatus
  | .placed => [.received, .cancelled]
  | .received => [.in_progress, .cancelled]
  | .in_progress => [.out_for_delivery, .cancelled]
  | .out_for_delivery => [.delivered, .cancelled]
  | .delivered => []
  | .cancelled => []

/-! ## Precondition token validation (orderManagementTool.ts lines 12-159) -/

/-- Uppercase hex digit, the `[A-F0-9]` class of the token patterns. -/
def isHexUpper (c : Char) : Bool :=
  c.isDigit || ( 'A' ≤ c && c ≤ 'F')

/-- The regular expression `PREFIX_\d{8}_\d{6}_[A-F0-9]{8}` applied to a
token, for a three-letter kind tag (LOC, INV or TXN) given as `tag`. -/
def tokenFormatOk (tag : List Char) (s : String) : Bool :=
  let cs := s.data
  cs.length == tag.length + 25 &&
  cs.take tag.length == tag &&
  (cs.drop tag.length).take 1 == [ '_'] &&
  ((cs.drop (tag.length + 1)).take 8).all Char.isDigit &&
  ((cs.drop (tag.length + 9)).take 1) == [ '_'] &&
  ((cs.drop (tag.length + 10)).take 6).all Char.isDigit &&
  ((cs.drop (tag.length + 16)).take 1) == [ '_'] &&
  ((cs.drop (tag.length + 17)).take 8).all isHexUpper

/-- Numeric value of a run of decimal digit characters. -/
def digitsVal (cs : List Char) : Int :=
  cs.foldl (fun n c => n * 10 + (Int.ofNat c.toNat - 48)) 0

/-- Whether a year is a leap year (proleptic Gregorian, as `Date` uses). -/
def isLeapYear (y : Int) : Bool :=
  (y % 4 == 0 && y % 100 != 0) || y % 400 == 0

/-- Days in a month of the proleptic Gregorian calendar. -/
def daysInMonth (y m : Int) : Int :=
  if m == 2 then (if isLeapYear y then 29 else 28)
  else if m == 4 || m == 6 || m == 9 || m == 11 then 30
  else 31

/-- Days from 1970-01-01 to the given civil date (Howard Hinnant's
days_from_civil; years in tokens are the four digits 0000-9999, so all
divisions stay on non-negative values). -/
def daysFromCivil (y m d : Int) : Int :=
  let y2 := if m ≤ 2 then y - 1 else y
  let era := (if 0 ≤ y2 then y2 else y2 - 399) / 400
  let yoe := y2 - era * 400
  let mp := (m + 9) % 12
  let doy := (153 * mp + 2) / 5 + d - 1
  let doe := yoe * 365 + yoe / 4 - yoe / 100 + doy
  era * 146097 + doe - 719468

/-- Epoch milliseconds of a civil date-time (the time value a JS `Date` holds
for the string `YYYY-MM-DDTHH:MM:SS`, up to the constant timezone offset,
which cancels against the same offset in `now`). -/
def civilMs (y m d h mi s : Int) : Int :=
  daysFromCivil y m d * 86400000 + h * 3600000 + mi * 60000 + s * 1000

/-- The date digits `YYYYMMDD` of a token: `substring(4, 12)` of the source
(every kind tag is three letters, so the run starts at index 4). -/
def tokenDateChars (s : String) : List Char :=
  (s.data.drop 4).take 8

/-- The time digits `HHMMSS` of a token: `substring(13, 19)` of the source. -/
def tokenTimeChars (s : String) : List Char :=
  (s.data.drop 13).take 6

/-- Time value of the `new Date` built from a token's embedded digits:
`some` epoch-milliseconds when the digits form a valid calendar date-time in
the ECMA-262 date-time string format (month 1-12, day within the month,
HH:MM:SS with 24:00:00 allowed), `none` for an Invalid Date (NaN time). -/
def tokenTimestampMs (s : String) : Option Int :=
  let d := tokenDateChars s
  let t := tokenTimeChars s
  let year := digitsVal (d.take 4)
  let month := digitsVal ((d.drop 4).take 2)
  let day := digitsVal (d.drop 6)
  let hour := digitsVal (t.take 2)
  let minute := digitsVal ((t.drop 2).take 2)
  let second := digitsVal (t.drop 4)
  if 1 ≤ month ∧ month ≤ 12 ∧ 1 ≤ day ∧ day ≤ daysInMonth year month ∧
      ((hour ≤ 23 ∧ minute ≤ 59 ∧ second ≤ 59) ∨
        (hour = 24 ∧ minute = 0 ∧ second = 0)) then
    some (civilMs year month day hour minute second)
  else
    none

/-- A JS ordered comparison `x > c` in which `x` may be NaN (`none`):
every comparison against NaN is false. -/
def jsGtNaN (x : Option ℚ) (c : ℚ) : Bool :=
  match x with
  | none => false
  | some v => decide (c < v)

/-- Result record of the three validators. -/
structure ValidationResult where
  valid : Bool
  reason : Option String
deriving DecidableEq, Repr

/-- validateLocationVerification (orderManagementTool.ts lines 12-59): format
check against `LOC_\d{8}_\d{6}_[A-F0-9]{8}`, then the 24-hour freshness
check on the embedded timestamp. `now` is the clock in epoch ms. -/
def validateLocationVerification (now : Int) (verifiedLocationId : String) :
    ValidationResult :=
  if !tokenFormatOk [ 'L', 'O', 'C'] verifiedLocationId then
    ⟨false, some "Invalid location verification ID format"⟩
  else
    let verificationTime := tokenTimestampMs verifiedLocationId
    let hoursDiff : Option ℚ :=
      verificationTime.map (fun t => ((now - t : Int) : ℚ) / (1000 * 60 * 60))
    if jsGtNaN hoursDiff 24 then
      ⟨false, some "Location verification expired (older than 24 hours)"⟩
    else
      ⟨true, none⟩

/-- validateInventoryReservation (orderManagementTool.ts lines 62-109):
format check against `INV_...`, then the 60-minute freshness check. -/
def validateInventoryReservation (now : Int) (inventoryReservationId : String) :
    ValidationResult :=
  if !tokenFormatOk [ 'I', 'N', 'V'] inventoryReservationId then
    ⟨false, some "Invalid inventory reservation ID format"⟩
  else
    let reservationTime := tokenTimestampMs inventoryReservationId
    let minutesDiff : Option ℚ :=
      reservationTime.map (fun t => ((now - t : Int) : ℚ) / (1000 * 60))
    if jsGtNaN minutesDiff 60 then
      ⟨false, some "Inventory reservation expired (older than 1 hour)"⟩
    else
      ⟨true, none⟩

/-- validatePaymentTransaction (orderManagementTool.ts lines 112-159):
format check against `TXN_...`, then the 120-minute freshness check. -/
def validatePaymentTransaction (now : Int) (paymentTransactionId : String) :
    ValidationResult :=
  if !tokenFormatOk [ 'T', 'X', 'N'] paymentTransactionId then
    ⟨false, some "Invalid payment transaction ID format"⟩
  else
    let transactionTime := tokenTimestampMs paymentTransactionId
    let minutesDiff : Option ℚ :=
      transactionTime.map (fun t => ((now - t : Int) : ℚ) / (1000 * 60))
    if jsGtNaN minutesDiff 120 then
      ⟨false, some "Payment transaction expired (older than 2 hours)"⟩
    else
      ⟨true, none⟩

/-! ## Data model (shared/schema.ts) -/

/-- A row of the products table. -/
structure Product where
  id : Int
  name : String
  description : String
  price : ℚ
  stock : Int
  isActive : Bool
deriving DecidableEq, Repr

/-- A row of the orders table (the columns the core reads and writes). -/
structure Order where
  id : String
  telegramUserId : String
  telegramUsername : Option String
  customerName : Option String
  deliveryAddress : String
  phoneNumber : Option String
  totalAmount : ℚ
  status : OrderStatus
  paymentStatus : String
  notes : Option String
deriving DecidableEq, Repr

/-- A row of the order_items table. -/
structure OrderItem where
  id : Int
  orderId : String
  productId : Int
  quantity : Int
  unitPrice : ℚ
  totalPrice : ℚ
deriving DecidableEq, Repr

/-- The persistent store: the three tables. -/
structure DB where
  products : List Product
  orders : List Order
  orderItems : List OrderItem
deriving DecidableEq, Repr

/-- A requested line item of createOrder (productId, quantity, unitPrice). -/
structure ReqItem where
  productId : Int
  quantity : Int
  unitPrice : ℚ
deriving DecidableEq, Repr

/-- JS string truthiness of an optional string argument (`if (s)`):
present and non-empty. -/
def strTruthy : Option String → Bool
  | none => false
  | some s => !s.isEmpty

/-- Rendering of a number into a message (`toString` of the interpolation);
exact for integers, `num/den` for non-integral rationals. -/
def ratStr (q : ℚ) : String :=
  if q.den == 1 then toString q.num
  else toString q.num ++ "/" ++ toString q.den

/-- JS `toFixed(2)` of a non-NaN amount: two decimal digits, rounding to the
nearest hundredth (ties away from zero). -/
def toFixed2 (q : ℚ) : String :=
  let m : Int := if q < 0 then -round (-q * 100) else round (q * 100)
  let a := m.natAbs
  let frac := a % 100
  (if m < 0 then "-" else "") ++ toString (a / 100) ++ "." ++
    (if frac < 10 then "0" ++ toString frac else toString frac)

/-- `SELECT ... FROM products WHERE id = pid` taking the first row. -/
def findProduct (db : DB) (pid : Int) : Option Product :=
  db.products.find? (fun p => p.id == pid)

/-- `SELECT ... FROM orders WHERE id = oid` taking the first row. -/
def findOrder (db : DB) (oid : String) : Option Order :=
  db.orders.find? (fun o => o.id == oid)

/-! ## Order Transaction Engine (orderManagementTool.ts createOrder) -/

/-- An entry of the productValidation array built by the stock/price loop:
the locked product row plus requestedQuantity and requestedUnitPrice
(the database price, the source of truth). -/
structure ProductValidation where
  id : Int
  name : String
  description : String
  price : ℚ
  stock : Int
  isActive : Bool
  requestedQuantity : Int
  requestedUnitPrice : ℚ
deriving DecidableEq, Repr

/-- The per-item validation loop of the transaction (lines 253-292): row
lookup, not-found / not-available / insufficient-stock failures, then the
price reconciliation (a mismatch with the caller price is only logged; the
database price is pushed as requestedUnitPrice). -/
def validateItemsTx (db : DB) : List ReqItem →
    Except String (List ProductValidation)
  | [] => .ok []
  | item :: rest =>
    match findProduct db item.productId with
    | none => .error ("Product with ID " ++ toString item.productId ++ " not found")
    | some product =>
      if !product.isActive then
        .error ("Product '" ++ product.name ++ "' is not available")
      else if product.stock < item.quantity then
        .error ("Insufficient stock for '" ++ product.name ++ "'. Available: " ++
          toString product.stock ++ ", Requested: " ++ toString item.quantity)
      else
        match validateItemsTx db rest with
        | .error e => .error e
        | .ok vs =>
          .ok ({ id := product.id, name := product.name,
                 description := product.description, price := product.price,
                 stock := product.stock, isActive := product.isActive,
                 requestedQuantity := item.quantity,
                 requestedUnitPrice := product.price } :: vs)

/-- `productValidation.reduce((sum, p) => sum + quantity * unitPrice, 0)`. -/
def calculatedTotal (vs : List ProductValidation) : ℚ :=
  vs.foldl (fun sum v => sum + (v.requestedQuantity : ℚ) * v.requestedUnitPrice) 0

/-- The total-mismatch error message (line 300). -/
def totalMismatchMsg (calcAmt provided : ℚ) : String :=
  "Total amount mismatch. Calculated: $" ++ toFixed2 calcAmt ++
    ", Provided: $" ++ toFixed2 provided

/-- The order-items insert data (lines 317-326): `items.map((item, index))`
paired with `productValidation[index]`, using the database price; ids are
the serial column, modelled as consecutive from `baseId`. -/
def buildOrderItems (oid : String) (baseId : Int) :
    List ReqItem → List ProductValidation → List OrderItem
  | [], _ => []
  | _ :: _, [] => []
  | item :: its, v :: vs =>
    { id := baseId, orderId := oid, productId := item.productId,
      quantity := item.quantity, unitPrice := v.requestedUnitPrice,
      totalPrice := (item.quantity : ℚ) * v.requestedUnitPrice } ::
      buildOrderItems oid (baseId + 1) its vs

/-- `UPDATE products SET stock = stock - qty WHERE id = pid AND stock >= qty
RETURNING id, stock` (lines 338-349): the new products table and the list of
affected rows. -/
def condStockUpdate (db : DB) (pid qty : Int) : DB × List Product :=
  let newProducts := db.products.map (fun p =>
    if p.id == pid ∧ qty ≤ p.stock then { p with stock := p.stock - qty } else p)
  let affected := (db.products.filter (fun p =>
    p.id == pid ∧ qty ≤ p.stock)).map (fun p => { p with stock := p.stock - qty })
  ({ db with products := newProducts }, affected)

/-- The zero-rows-affected fatal message (line 353). -/
def criticalZeroMsg (pid : Int) : String :=
  "CRITICAL: Failed to update stock for product ID " ++ toString pid ++
    " - insufficient inventory or product not found. This would have caused inventory inconsistency."

/-- The more-than-one-row fatal message (line 357). -/
def criticalMultiMsg (pid : Int) : String :=
  "CRITICAL: Multiple products updated for ID " ++ toString pid ++
    ". This indicates a database integrity issue."

/-- The stock-decrement loop of the transaction (lines 331-365): each item's
conditional update must affect exactly one row, else the transaction throws. -/
def stockUpdateLoop : DB → List ReqItem → Except String DB
  | db, [] => .ok db
  | db, item :: rest =>
    let step := condStockUpdate db item.productId item.quantity
    if step.2.length == 0 then .error (criticalZeroMsg item.productId)
    else if 1 < step.2.length then .error (criticalMultiMsg item.productId)
    else stockUpdateLoop step.1 rest

/-- Arguments of createOrder. -/
structure CreateOrderArgs where
  telegramUserId : String
  telegramUsername : Option String
  customerName : String
  deliveryAddress : String
  phoneNumber : Option String
  orderItems : List ReqItem
  totalAmount : ℚ
  notes : Option String
  verifiedLocationId : String
  inventoryReservationId : String
  paymentTransactionId : String
deriving Repr

/-- The body given to `db.transaction` (lines 251-368): item validation,
total reconciliation against the declared total with 0.01 tolerance, the
order insert (status placed, paymentStatus pending, the declared total
persisted), the order-items insert with database prices, then the guarded
stock decrements. -/
def createOrderTxBody (newOrderId : String) (nextItemId : Int)
    (a : CreateOrderArgs) (db : DB) :
    Except String (DB × (Order × List OrderItem)) :=
  match validateItemsTx db a.orderItems with
  | .error e => .error e
  | .ok productValidation =>
    let calcAmt := calculatedTotal productValidation
    if (1 : ℚ) / 100 < |calcAmt - a.totalAmount| then
      .error (totalMismatchMsg calcAmt a.totalAmount)
    else
      let newOrder : Order :=
        { id := newOrderId, telegramUserId := a.telegramUserId,
          telegramUsername := a.telegramUsername,
          customerName := some a.customerName,
          deliveryAddress := a.deliveryAddress,
          phoneNumber := a.phoneNumber, totalAmount := a.totalAmount,
          status := .placed, paymentStatus := "pending", notes := a.notes }
      let db1 := { db with orders := db.orders ++ [newOrder] }
      let createdItems :=
        buildOrderItems newOrderId nextItemId a.orderItems productValidation
      let db2 := { db1 with orderItems := db1.orderItems ++ createdItems }
      match stockUpdateLoop db2 a.orderItems with
      | .error e => .error e
      | .ok db3 => .ok (db3, newOrder, createdItems)

/-- `db.transaction`: commit the body's writes on success, discard them when
the body throws (full rollback, no partial state). -/
def runTransaction (db : DB)
    (body : DB → Except String (DB × α)) : DB × Except String α :=
  match body db with
  | .ok (db2, r) => (db2, .ok r)
  | .error e => (db, .error e)

/-- createOrder (orderManagementTool.ts lines 174-387): the three token
validations in order (location, inventory, payment), each failure thrown as
an OPERATIONAL PRECONDITION FAILED error, then the atomic transaction.
`now` is the clock, `newOrderId` the generated uuid, `nextItemId` the next
serial id of order_items. -/
def createOrder (now : Int) (newOrderId : String) (nextItemId : Int)
    (db : DB) (a : CreateOrderArgs) :
    DB × Except String (Order × List OrderItem) :=
  let locationValidation := validateLocationVerification now a.verifiedLocationId
  if !locationValidation.valid then
    (db, .error ("OPERATIONAL PRECONDITION FAILED: " ++
      locationValidation.reason.getD "undefined"))
  else
    let inventoryValidation :=
      validateInventoryReservation now a.inventoryReservationId
    if !inventoryValidation.valid then
      (db, .error ("OPERATIONAL PRECONDITION FAILED: " ++
        inventoryValidation.reason.getD "undefined"))
    else
      let paymentValidation :=
        validatePaymentTransaction now a.paymentTransactionId
      if !paymentValidation.valid then
        (db, .error ("OPERATIONAL PRECONDITION FAILED: " ++
          paymentValidation.reason.getD "undefined"))
      else
        runTransaction db (createOrderTxBody newOrderId nextItemId a)

/-! ## Tool entry: the create_order branch of execute
(orderManagementTool.ts lines 841-955) -/

/-- An order item joined with its product, as selected for notifications. -/
structure OrderItemView where
  quantity : Int
  unitPrice : ℚ
  totalPrice : ℚ
  productName : String
  productDescription : String
deriving DecidableEq, Repr

/-- The join `orderItems INNER JOIN products ON productId = id WHERE
orderId = oid`. -/
def getOrderItemViews (db : DB) (oid : String) : List OrderItemView :=
  db.orderItems.filterMap (fun it =>
    if it.orderId == oid then
      (findProduct db it.productId).map (fun p =>
        { quantity := it.quantity, unitPrice := it.unitPrice,
          totalPrice := it.totalPrice, productName := p.name,
          productDescription := p.description })
    else none)

/-- A STATUS_MESSAGES template entry. -/
structure StatusInfo where
  title : String
  message : String
  icon : String
  estimatedTime : Option String
deriving DecidableEq, Repr

/-- STATUS_MESSAGES (lines 455-495): the fixed template per status. -/
def STATUS_MESSAGES : OrderStatus → StatusInfo
  | .placed =>
    { title := "📦 Order Confirmed",
      message := "Thank you for your order! We've received your request and will process it shortly.",
      icon := "📦", estimatedTime := some "Processing begins within 1-2 hours" }
  | .received =>
    { title := "✅ Order Received",
      message := "Your order has been received and verified by our team. We're preparing your items for delivery.",
      icon := "✅",
      estimatedTime := some "Preparation will complete in 30-60 minutes" }
  | .in_progress =>
    { title := "🚀 Preparing Your Order",
      message := "Great news! Your order is currently being prepared for delivery. We're ensuring everything is perfect for you.",
      icon := "🚀", estimatedTime := some "Ready for delivery in 15-30 minutes" }
  | .out_for_delivery =>
    { title := "🚗 Out for Delivery",
      message := "Your order is now on its way! Our delivery team is heading to your location with your discreet package.",
      icon := "🚗", estimatedTime := some "Delivery within 30-45 minutes" }
  | .delivered =>
    { title := "🎉 Delivered Successfully",
      message := "Your order has been delivered! Thank you for choosing our discreet delivery service. We hope you're satisfied with your purchase.",
      icon := "🎉", estimatedTime := none }
  | .cancelled =>
    { title := "❌ Order Cancelled",
      message := "Your order has been cancelled. If you have any questions or would like to place a new order, please don't hesitate to contact us.",
      icon := "❌", estimatedTime := none }

/-- formatOrderSummary (lines 498-512): the itemized order block of the
notification text. -/
def formatOrderSummary (order : Order) (items : List OrderItemView) : String :=
  let itemsList := String.intercalate "\n" (items.map (fun item =>
    "• " ++ item.productName ++ " (x" ++ toString item.quantity ++ ") - $" ++
      ratStr item.totalPrice))
  "*Order Details:*\nOrder ID: `" ++ order.id ++ "`\n" ++ itemsList ++
    "\n\n*Total: $" ++ ratStr order.totalAmount ++ "*\n*Delivery Address:* " ++
    order.deliveryAddress ++
    (match order.phoneNumber with
     | some ph => "\n*Contact:* " ++ ph
     | none => "\n")

/-- The prepared Telegram message of a notification. -/
structure TelegramMessage where
  chat_id : String
  text : String
  parse_mode : String
  disable_notification : Bool
deriving DecidableEq, Repr

/-- Result of sendAutomatedStatusNotification. -/
structure NotificationResult where
  success : Bool
  notification : TelegramMessage
  statusInfo : StatusInfo
  formattedMessage : String
deriving DecidableEq, Repr

/-- sendAutomatedStatusNotification (lines 515-588): builds the customer
message for the new status from the template, the notes and the order
summary; pure and total (the dispatch itself is external). -/
def sendAutomatedStatusNotification (order : Order) (items : List OrderItemView)
    (newStatus : OrderStatus) (notes : Option String) :
    Except String NotificationResult :=
  let statusInfo := STATUS_MESSAGES newStatus
  let orderSummary := formatOrderSummary order items
  let estimatedTime := match statusInfo.estimatedTime with
    | some t => "\n\n⏰ *" ++ t ++ "*"
    | none => ""
  let additionalMessage := match notes with
    | some n => "\n\n📝 " ++ n
    | none => ""
  let notificationText := statusInfo.icon ++ " *" ++ statusInfo.title ++
    "*\n\n" ++ statusInfo.message ++ estimatedTime ++ additionalMessage ++
    "\n\n" ++ orderSummary ++
    "\n\nThank you for choosing our discreet delivery service! 🌟"
  .ok { success := true,
        notification := { chat_id := order.telegramUserId,
                          text := notificationText, parse_mode := "Markdown",
                          disable_notification := false },
        statusInfo := statusInfo, formattedMessage := notificationText }

/-! ## Customer-path status update (orderManagementTool.ts lines 591-716) -/

/-- What updateOrderStatus returns on a found order: the updated row and the
notification data when the automated notification succeeded (absent when it
failed, the failure being only logged). -/
structure UpdateResult where
  order : Order
  automatedNotification : Option NotificationResult
deriving DecidableEq, Repr

/-- updateOrderStatus (lines 591-716), with the notification step abstracted
as `notify` (the production value is `sendAutomatedStatusNotification`, but
a thrown build/dispatch error lands in the catch of lines 696-705): checks
only that the status is one of the six ORDER_STATUSES - there is no
transition-table lookup on this path - loads the order, overwrites the notes
column when notes is truthy, persists the new status, then attempts the
notification; a notification failure is caught and the updated order is
still returned. -/
def updateOrderStatus
    (notify : Order → List OrderItemView → OrderStatus → Option String →
      Except String NotificationResult)
    (db : DB) (orderId : String) (status : OrderStatus)
    (notes : Option String) : DB × Except String (Option UpdateResult) :=
  if !(ORDER_STATUSES.contains status) then
    (db, .error ("Invalid order status: " ++ statusName status))
  else
    match findOrder db orderId with
    | none => (db, .ok none)
    | some currentOrder =>
      let orderItemsData := getOrderItemViews db orderId
      let newNotes := if strTruthy notes then notes else currentOrder.notes
      let updatedOrder := { currentOrder with status := status, notes := newNotes }
      let db2 := { db with orders := db.orders.map (fun o =>
        if o.id == orderId then updatedOrder else o) }
      match notify updatedOrder orderItemsData status notes with
      | .ok notificationResult =>
        (db2, .ok (some { order := updatedOrder,
                          automatedNotification := some notificationResult }))
      | .error _ =>
        (db2, .ok (some { order := updatedOrder,
                          automatedNotification := none }))

/-! ## Admin-path status update (adminOrderTool.ts lines 201-296) -/

/-- The invalid-transition error message (adminOrderTool.ts line 239). -/
def invalidTransitionMsg (currentStatus newStatus : OrderStatus) : String :=
  "Invalid status transition from '" ++ statusName currentStatus ++ "' to '" ++
    statusName newStatus ++ "'. Valid transitions: " ++
    String.intercalate ", " ((VALID_STATUS_TRANSITIONS currentStatus).map statusName)

/-- Result of updateOrderStatusAdmin. -/
structure AdminUpdateResult where
  order : Order
  previousStatus : OrderStatus
  statusTransition : String
deriving DecidableEq, Repr

/-- updateOrderStatusAdmin (adminOrderTool.ts lines 201-296): loads the
order, rejects any transition not in VALID_STATUS_TRANSITIONS naming the
valid alternatives, builds a timestamped attributed admin log entry
(`nowIso` is `new Date().toISOString()`), prepends it to the existing notes
(preserving all historical data) and persists status and notes. -/
def updateOrderStatusAdmin (nowIso : String) (db : DB) (orderId : String)
    (newStatus : OrderStatus) (adminNotes : Option String)
    (adminUserId : Option String) : DB × Except String AdminUpdateResult :=
  match findOrder db orderId with
  | none => (db, .error ("Order " ++ orderId ++ " not found"))
  | some currentOrder =>
    let currentStatus := currentOrder.status
    let validTransitions := VALID_STATUS_TRANSITIONS currentStatus
    if !(validTransitions.contains newStatus) then
      (db, .error (invalidTransitionMsg currentStatus newStatus))
    else
      let existingNotes := currentOrder.notes.getD ""
      let newAdminLog :=
        if strTruthy adminUserId then
          let base := "[" ++ nowIso ++ "] Admin " ++ adminUserId.getD "" ++
            ": Status changed from '" ++ statusName currentStatus ++
            "' to '" ++ statusName newStatus ++ "'"
          if strTruthy adminNotes then
            base ++ "\nAdmin notes: " ++ adminNotes.getD ""
          else base
        else if strTruthy adminNotes then
          "[" ++ nowIso ++ "] Admin notes: " ++ adminNotes.getD ""
        else ""
      let finalNotes :=
        if !newAdminLog.isEmpty then
          if !existingNotes.isEmpty then newAdminLog ++ "\n" ++ existingNotes
          else newAdminLog
        else existingNotes
      let updatedOrder :=
        { currentOrder with status := newStatus, notes := some finalNotes }
      ({ db with orders := db.orders.map (fun o =>
          if o.id == orderId then updatedOrder else o) },
        .ok { order := updatedOrder, previousStatus := currentStatus,
              statusTransition := statusName currentStatus ++ " → " ++
                statusName newStatus })

/-! ## Admin stock-set (productCatalogTool.ts lines 46-81) -/

/-- updateProductStock: `UPDATE products SET stock = newStock WHERE
id = productId RETURNING *`; no bound of any kind is checked on newStock
(the zod input schema is a plain optional number as well). -/
def updateProductStock (db : DB) (productId newStock : Int) :
    DB × Option Product :=
  let newProducts := db.products.map (fun p =>
    if p.id == productId then { p with stock := newStock } else p)
  let updated := newProducts.filter (fun p => p.id == productId)
  ({ db with products := newProducts }, updated.head?)

/-! ## Helper lemmas -/

/-- A NaN-guarded divided comparison against a positive constant divisor is
the comparison of the products. -/
lemma jsGtNaN_some_div_iff (x : Int) (c d : ℚ) (hd : 0 < d) :
    jsGtNaN (some ((x : ℚ) / d)) c = true ↔ c * d < (x : ℚ) := by
  simp [jsGtNaN, lt_div_iff₀ hd]

/-- Every status value is in the ORDER_STATUSES array. -/
lemma mem_ORDER_STATUSES (s : OrderStatus) : ORDER_STATUSES.contains s = true := by
  cases s <;> decide

/-! ## C8: validator format and freshness checks -/

/-- C8. Each precondition validator rejects a token that does not match its
kind's pattern with the format reason, rejects a well-formed token whose
embedded timestamp is older than the kind's window (24 h / 60 min / 120 min,
here in epoch milliseconds) with an expiry reason distinct from the format
reason, and accepts every other well-formed token with a parseable, fresh
timestamp. -/
theorem c8_validator_format_and_freshness :
    ∀ (now : Int) (s : String),
      (tokenFormatOk [ 'L', 'O', 'C'] s = false →
        validateLocationVerification now s =
          ⟨false, some "Invalid location verification ID format"⟩) ∧
      (∀ t, tokenFormatOk [ 'L', 'O', 'C'] s = true →
        tokenTimestampMs s = some t → 86400000 < now - t →
        validateLocationVerification now s =
          ⟨false, some "Location verification expired (older than 24 hours)"⟩) ∧
      (∀ t, tokenFormatOk [ 'L', 'O', 'C'] s = true →
        tokenTimestampMs s = some t → now - t ≤ 86400000 →
        validateLocationVerification now s = ⟨true, none⟩) ∧
      (tokenFormatOk [ 'I', 'N', 'V'] s = false →
        validateInventoryReservation now s =
          ⟨false, some "Invalid inventory reservation ID format"⟩) ∧
      (∀ t, tokenFormatOk [ 'I', 'N', 'V'] s = true →
        tokenTimestampMs s = some t → 3600000 < now - t →
        validateInventoryReservation now s =
          ⟨false, some "Inventory reservation expired (older than 1 hour)"⟩) ∧
      (∀ t, tokenFormatOk [ 'I', 'N', 'V'] s = true →
        tokenTimestampMs s = some t → now - t ≤ 3600000 →
        validateInventoryReservation now s = ⟨true, none⟩) ∧
      (tokenFormatOk [ 'T', 'X', 'N'] s = false →
        validatePaymentTransaction now s =
          ⟨false, some "Invalid payment transaction ID format"⟩) ∧
      (∀ t, tokenFormatOk [ 'T', 'X', 'N'] s = true →
        tokenTimestampMs s = some t → 7200000 < now - t →
        validatePaymentTransaction now s =
          ⟨false, some "Payment transaction expired (older than 2 hours)"⟩) ∧
      (∀ t, tokenFormatOk [ 'T', 'X', 'N'] s = true →
        tokenTimestampMs s = some t → now - t ≤ 7200000 →
        validatePaymentTransaction now s = ⟨true, none⟩) ∧
      ("Location verification expired (older than 24 hours)" ≠
        "Invalid location verification ID format") ∧
      ("Inventory reservation expired (older than 1 hour)" ≠
        "Invalid inventory reservation ID format") ∧
      ("Payment transaction expired (older than 2 hours)" ≠
        "Invalid payment transaction ID format") := by
  intro now s
  have hdh : (0 : ℚ) < 1000 * 60 * 60 := by norm_num
  have hdm : (0 : ℚ) < 1000 * 60 := by norm_num
  refine ⟨?_, ?_, ?_, ?_, ?_, ?_, ?_, ?_, ?_, by decide, by decide, by decide⟩
  · intro h; simp [validateLocationVerification, h]
  · intro t hf ht hgt
    have h24 : jsGtNaN (some (((now - t : Int) : ℚ) / (1000 * 60 * 60))) 24 = true := by
      rw [jsGtNaN_some_div_iff _ _ _ hdh]
      have hc : ((86400000 : Int) : ℚ) < ((now - t : Int) : ℚ) := by exact_mod_cast hgt
      norm_num at hc ⊢
      linarith
    push_cast at h24
    simp [validateLocationVerification, hf, ht, h24]
  · intro t hf ht hle
    have h24 : jsGtNaN (some (((now - t : Int) : ℚ) / (1000 * 60 * 60))) 24 = false := by
      rw [Bool.eq_false_iff]
      intro hcon
      rw [jsGtNaN_some_div_iff _ _ _ hdh] at hcon
      have hc : ((now - t : Int) : ℚ) ≤ ((86400000 : Int) : ℚ) := by exact_mod_cast hle
      norm_num at hc hcon
      linarith
    push_cast at h24
    simp [validateLocationVerification, hf, ht, h24]
  · intro h; simp [validateInventoryReservation, h]
  · intro t hf ht hgt
    have h60 : jsGtNaN (some (((now - t : Int) : ℚ) / (1000 * 60))) 60 = true := by
      rw [jsGtNaN_some_div_iff _ _ _ hdm]
      have hc : ((3600000 : Int) : ℚ) < ((now - t : Int) : ℚ) := by exact_mod_cast hgt
      norm_num at hc ⊢
      linarith
    push_cast at h60
    simp [validateInventoryReservation, hf, ht, h60]
  · intro t hf ht hle
    have h60 : jsGtNaN (some (((now - t : Int) : ℚ) / (1000 * 60))) 60 = false := by
      rw [Bool.eq_false_iff]
      intro hcon
      rw [jsGtNaN_some_div_iff _ _ _ hdm] at hcon
      have hc : ((now - t : Int) : ℚ) ≤ ((3600000 : Int) : ℚ) := by exact_mod_cast hle
      norm_num at hc hcon
      linarith
    push_cast at h60
    simp [validateInventoryReservation, hf, ht, h60]
  · intro h; simp [validatePaymentTransaction, h]
  · intro t hf ht hgt
    have h120 : jsGtNaN (some (((now - t : Int) : ℚ) / (1000 * 60))) 120 = true := by
      rw [jsGtNaN_some_div_iff _ _ _ hdm]
      have hc : ((7200000 : Int) : ℚ) < ((now - t : Int) : ℚ) := by exact_mod_cast hgt
      norm_num at hc ⊢
      linarith
    push_cast at h120
    simp [validatePaymentTransaction, hf, ht, h120]
  · intro t hf ht hle
    have h120 : jsGtNaN (some (((now - t : Int) : ℚ) / (1000 * 60))) 120 = false := by
      rw [Bool.eq_false_iff]
      intro hcon
      rw [jsGtNaN_some_div_iff _ _ _ hdm] at hcon
      have hc : ((now - t : Int) : ℚ) ≤ ((7200000 : Int) : ℚ) := by exact_mod_cast hle
      norm_num at hc hcon
      linarith
    push_cast at h120
    simp [validatePaymentTransaction, hf, ht, h120]

/-- Witness for C8: a location token issued 2024-01-01 12:00:00 is rejected
as expired 48 hours later and accepted 30 minutes later; a malformed token
is rejected with the format reason. -/
theorem c8_validator_witness :
    validateLocationVerification (civilMs 2024 1 3 12 0 0)
        "LOC_20240101_120000_ABCDEF12" =
      ⟨false, some "Location verification expired (older than 24 hours)"⟩ ∧
    validateLocationVerification (civilMs 2024 1 1 12 30 0)
        "LOC_20240101_120000_ABCDEF12" = ⟨true, none⟩ ∧
    validateInventoryReservation (civilMs 2024 1 1 12 30 0) "LOC_BADFORMAT" =
      ⟨false, some "Invalid inventory reservation ID format"⟩ := by
  refine ⟨?_, ?_, ?_⟩
  · exact (c8_validator_format_and_freshness (civilMs 2024 1 3 12 0 0)
      "LOC_20240101_120000_ABCDEF12").2.1 1704110400000 (by decide) (by decide)
      (by decide)
  · exact ((c8_validator_format_and_freshness (civilMs 2024 1 1 12 30 0)
      "LOC_20240101_120000_ABCDEF12").2.2.1) 1704110400000 (by decide)
      (by decide) (by decide)
  · exact ((c8_validator_format_and_freshness (civilMs 2024 1 1 12 30 0)
      "LOC_BADFORMAT").2.2.2.1) (by decide)

/-! ## C10: NaN ages and future timestamps pass the freshness check -/

/-- C10. The freshness check only rejects when the computed age strictly
exceeds the window, so each validator accepts a well-formed token whose
embedded digits do not form a valid calendar date-time (the NaN age of the
Invalid Date never compares greater than the window) and accepts any
well-formed token whose embedded timestamp is not in the past. -/
theorem c10_nan_and_future_accepted :
    ∀ (now : Int) (s : String),
      (tokenFormatOk [ 'L', 'O', 'C'] s = true → tokenTimestampMs s = none →
        validateLocationVerification now s = ⟨true, none⟩) ∧
      (∀ t, tokenFormatOk [ 'L', 'O', 'C'] s = true →
        tokenTimestampMs s = some t → now ≤ t →
        validateLocationVerification now s = ⟨true, none⟩) ∧
      (tokenFormatOk [ 'I', 'N', 'V'] s = true → tokenTimestampMs s = none →
        validateInventoryReservation now s = ⟨true, none⟩) ∧
      (∀ t, tokenFormatOk [ 'I', 'N', 'V'] s = true →
        tokenTimestampMs s = some t → now ≤ t →
        validateInventoryReservation now s = ⟨true, none⟩) ∧
      (tokenFormatOk [ 'T', 'X', 'N'] s = true → tokenTimestampMs s = none →
        validatePaymentTransaction now s = ⟨true, none⟩) ∧
      (∀ t, tokenFormatOk [ 'T', 'X', 'N'] s = true →
        tokenTimestampMs s = some t → now ≤ t →
        validatePaymentTransaction now s = ⟨true, none⟩) := by
  intro now s
  have hdh : (0 : ℚ) < 1000 * 60 * 60 := by norm_num
  have hdm : (0 : ℚ) < 1000 * 60 := by norm_num
  have hfut : ∀ (t : Int) (c d : ℚ), now ≤ t → 0 < d → 0 < c →
      jsGtNaN (some (((now - t : Int) : ℚ) / d)) c = false := by
    intro t c d hle hd hc
    rw [Bool.eq_false_iff]
    intro hcon
    rw [jsGtNaN_some_div_iff _ _ _ hd] at hcon
    have h0 : ((now - t : Int) : ℚ) ≤ 0 := by
      have : (now : ℚ) ≤ (t : ℚ) := by exact_mod_cast hle
      push_cast
      linarith
    nlinarith
  refine ⟨?_, ?_, ?_, ?_, ?_, ?_⟩
  · intro hf ht; simp [validateLocationVerification, hf, ht, jsGtNaN]
  · intro t hf ht hle
    have hx := hfut t 24 (1000 * 60 * 60) hle hdh (by norm_num)
    push_cast at hx
    simp [validateLocationVerification, hf, ht, hx]
  · intro hf ht; simp [validateInventoryReservation, hf, ht, jsGtNaN]
  · intro t hf ht hle
    have hx := hfut t 60 (1000 * 60) hle hdm (by norm_num)
    push_cast at hx
    simp [validateInventoryReservation, hf, ht, hx]
  · intro hf ht; simp [validatePaymentTransaction, hf, ht, jsGtNaN]
  · intro t hf ht hle
    have hx := hfut t 120 (1000 * 60) hle hdm (by norm_num)
    push_cast at hx
    simp [validatePaymentTransaction, hf, ht, hx]

/-- Witness for C10: a location token with month digits 99 (no valid
calendar date, the parsed Date is Invalid) is accepted, and a payment token
stamped a day in the future of the clock is accepted. -/
theorem c10_nan_and_future_witness :
    validateLocationVerification (civilMs 2024 1 1 12 0 0)
        "LOC_20259901_120000_ABCDEF12" = ⟨true, none⟩ ∧
    validatePaymentTransaction (civilMs 2024 1 1 12 0 0)
        "TXN_20240102_120000_ABCDEF12" = ⟨true, none⟩ := by
  constructor
  · exact (c10_nan_and_future_accepted (civilMs 2024 1 1 12 0 0)
      "LOC_20259901_120000_ABCDEF12").1 (by decide) (by decide)
  · exact ((c10_nan_and_future_accepted (civilMs 2024 1 1 12 0 0)
      "TXN_20240102_120000_ABCDEF12").2.2.2.2.2) 1704196800000 (by decide)
      (by decide) (by decide)

/-! ## String containment and list-update helpers -/

/-- Equality on thrown-or-returned results is decidable. -/
instance instDecEqExcept {ε α : Type} [DecidableEq ε] [DecidableEq α] :
    DecidableEq (Except ε α) := fun x y =>
  match x, y with
  | .ok a, .ok b =>
    if h : a = b then .isTrue (congrArg Except.ok h)
    else .isFalse (fun hc => h (Except.ok.inj hc))
  | .ok _, .error _ => .isFalse (fun hc => Except.noConfusion hc)
  | .error _, .ok _ => .isFalse (fun hc => Except.noConfusion hc)
  | .error e, .error f =>
    if h : e = f then .isTrue (congrArg Except.error h)
    else .isFalse (fun hc => h (Except.error.inj hc))


/-- Whether the needle characters open the hay. -/
def startsWithChars : List Char → List Char → Bool
  | [], _ => true
  | _ :: _, [] => false
  | a :: as, b :: bs => a == b && startsWithChars as bs

/-- Whether the needle occurs contiguously in the hay. -/
def hasSegment (needle : List Char) : List Char → Bool
  | [] => needle.isEmpty
  | c :: t => startsWithChars needle (c :: t) || hasSegment needle t

/-- JS `hay.includes(needle)`. -/
def strIncludes (hay needle : String) : Bool :=
  hasSegment needle.data hay.data

lemma startsWithChars_self (xs : List Char) : startsWithChars xs xs = true := by
  induction xs with
  | nil => rfl
  | cons a l ih => simp [startsWithChars, ih]

lemma hasSegment_append (p xs : List Char) : hasSegment xs (p ++ xs) = true := by
  induction p with
  | nil =>
    cases xs with
    | nil => rfl
    | cons a l => simp [hasSegment, startsWithChars_self]
  | cons c p ih => simp [hasSegment, ih]

lemma strIncludes_self (s : String) : strIncludes s s = true := by
  have h := hasSegment_append [] s.data
  simpa [strIncludes] using h

lemma strIncludes_empty_right (s : String) : strIncludes s "" = true := by
  cases s with
  | mk l =>
    cases l with
    | nil => rfl
    | cons c t => simp [strIncludes, hasSegment, startsWithChars]

lemma strIncludes_append_left (a b : String) : strIncludes (a ++ b) b = true := by
  cases a with
  | mk la =>
    cases b with
    | mk lb =>
      show hasSegment lb (la ++ lb) = true
      exact hasSegment_append la lb

/-- Replacing the found element of an orders list: `find?` over the updated
list returns the replacement when its id still matches. -/
lemma find?_update_orders (l : List Order) (oid : String) (u o : Order)
    (hfind : l.find? (fun x => x.id == oid) = some o) (hu : u.id = o.id) :
    (l.map (fun x => if x.id == oid then u else x)).find?
      (fun x => x.id == oid) = some u := by
  induction l with
  | nil => simp at hfind
  | cons a t ih =>
    by_cases ha : (a.id == oid) = true
    · have h1 := List.find?_cons_of_pos (p := fun x : Order => x.id == oid) t ha
      rw [h1] at hfind
      have hao : a = o := Option.some.inj hfind
      have hua : (u.id == oid) = true := by
        rw [hu, ← hao]
        exact ha
      simp only [List.map_cons, if_pos ha]
      exact List.find?_cons_of_pos (p := fun x : Order => x.id == oid) _ hua
    · have h1 := List.find?_cons_of_neg (p := fun x : Order => x.id == oid) t ha
      rw [h1] at hfind
      simp only [List.map_cons, if_neg ha]
      rw [List.find?_cons_of_neg (p := fun x : Order => x.id == oid) _ ha]
      exact ih hfind

/-! ## Concrete fixtures for counterexamples and witnesses -/

/-- A catalog row: product 1, price 10.00, stock 5, active. -/
def demoProduct : Product :=
  { id := 1, name := "Premium Lube", description := "Water-based formula",
    price := 10, stock := 5, isActive := true }

/-- An order already delivered, with a prior note on file. -/
def demoDeliveredOrder : Order :=
  { id := "o1", telegramUserId := "u1", telegramUsername := none,
    customerName := some "Alice", deliveryAddress := "1 Main St",
    phoneNumber := none, totalAmount := 20, status := .delivered,
    paymentStatus := "pending",
    notes := some "Customer requested discreet packaging" }

/-- An order still in the placed state, with a prior note on file. -/
def demoPlacedOrder : Order :=
  { demoDeliveredOrder with id := "o2", status := .placed }

/-- Store holding the delivered order. -/
def demoDB : DB := ⟨[demoProduct], [demoDeliveredOrder], []⟩

/-- Store holding the placed order. -/
def demoDB2 : DB := ⟨[demoProduct], [demoPlacedOrder], []⟩

/-- The status of the order a customer-path update returned, if any. -/
def custUpdatedStatus (r : Except String (Option UpdateResult)) :
    Option OrderStatus :=
  match r with
  | .ok (some u) => some u.order.status
  | _ => none

/-- The notes of the order a customer-path update returned, if any. -/
def custUpdatedNotes (r : Except String (Option UpdateResult)) :
    Option String :=
  match r with
  | .ok (some u) => u.order.notes
  | _ => none

/-! ## C1: the status-transition table on the two update paths -/

/-- Counterexample to C1: the customer-path updateOrderStatus has no
transition-table check, so it moves an order out of the terminal `delivered`
state into `in_progress` and persists the change. -/
theorem c1_counterexample_customer_path_ignores_table :
    demoDeliveredOrder.status = OrderStatus.delivered ∧
    custUpdatedStatus (updateOrderStatus sendAutomatedStatusNotification demoDB
        "o1" OrderStatus.in_progress none).2 = some OrderStatus.in_progress ∧
    ((updateOrderStatus sendAutomatedStatusNotification demoDB "o1"
        OrderStatus.in_progress none).1.orders.map Order.status) =
      [OrderStatus.in_progress] := by
  decide

/-- C1 as amended: only the admin path enforces the transition table - an
admin update whose requested status is not in the table for the order's
current status fails with the invalid-transition message naming the valid
alternatives and leaves the store unchanged (so nothing leaves `delivered`
or `cancelled` on that path) - while the customer path accepts any of the
six statuses for an order in any current state. -/
theorem c1_amended_transition_enforcement :
    (∀ (nowIso : String) (db : DB) (orderId : String)
        (newStatus : OrderStatus) (adminNotes adminUserId : Option String)
        (o : Order), findOrder db orderId = some o →
        (VALID_STATUS_TRANSITIONS o.status).contains newStatus = false →
        updateOrderStatusAdmin nowIso db orderId newStatus adminNotes
            adminUserId =
          (db, .error (invalidTransitionMsg o.status newStatus))) ∧
    (∀ (notify : Order → List OrderItemView → OrderStatus → Option String →
        Except String NotificationResult)
        (db : DB) (orderId : String) (status : OrderStatus)
        (notes : Option String) (o : Order), findOrder db orderId = some o →
        custUpdatedStatus (updateOrderStatus notify db orderId status notes).2 =
          some status) := by
  constructor
  · intro nowIso db orderId newStatus adminNotes adminUserId o hfind hc
    simp [updateOrderStatusAdmin, findOrder] at hfind ⊢
    simp [hfind]
    simpa using hc
  · intro notify db orderId status notes o hfind
    have hm := mem_ORDER_STATUSES status
    simp only [updateOrderStatus, hm, Bool.not_true, Bool.false_eq_true,
      if_false]
    rw [hfind]
    split
    next x heq => exact Option.noConfusion heq
    next x cur heq =>
      injection heq with h
      subst h
      split <;> simp [custUpdatedStatus]

/-- Witness for C1 as amended: the admin path refuses to move the delivered
order o1 to in_progress and leaves the store unchanged, while the customer
path moves it to received. -/
theorem c1_amended_witness :
    updateOrderStatusAdmin "2024-01-01T12:00:00.000Z" demoDB "o1"
        OrderStatus.in_progress none (some "admin1") =
      (demoDB, .error (invalidTransitionMsg OrderStatus.delivered
        OrderStatus.in_progress)) ∧
    custUpdatedStatus (updateOrderStatus sendAutomatedStatusNotification demoDB
        "o1" OrderStatus.received none).2 = some OrderStatus.received := by
  constructor
  · exact c1_amended_transition_enforcement.1 "2024-01-01T12:00:00.000Z" demoDB
      "o1" OrderStatus.in_progress none (some "admin1") demoDeliveredOrder
      (by decide) (by decide)
  · exact c1_amended_transition_enforcement.2 sendAutomatedStatusNotification
      demoDB "o1" OrderStatus.received none demoDeliveredOrder (by decide)

/-! ## C5: note handling on the two update paths -/

/-- The finalNotes combination of updateOrderStatusAdmin keeps the existing
notes as a segment: prepended log, bare log over empty history, or the
unchanged history. -/
lemma finalNotes_keeps_existing (log ex : String) :
    strIncludes (if !log.isEmpty then
        (if !ex.isEmpty then log ++ "\n" ++ ex else log) else ex) ex = true := by
  by_cases hl : log.isEmpty = true
  · simp [hl, strIncludes_self]
  · by_cases he : ex.isEmpty = true
    · have hex : ex = "" := (String.isEmpty_iff ex).mp he
      subst hex
      simp only [Bool.not_eq_true] at hl
      simp [hl, he, strIncludes_empty_right]
    · simp only [Bool.not_eq_true] at hl he
      simp only [hl, he, Bool.not_false, if_true]
      exact strIncludes_append_left (log ++ "\n") ex

/-- Counterexample to C5: the customer-path updateOrderStatus assigns the
new notes value over the notes column, so the prior note is gone from the
persisted order (it is not even a substring of the new value). -/
theorem c5_counterexample_customer_path_overwrites_notes :
    demoDeliveredOrder.notes = some "Customer requested discreet packaging" ∧
    custUpdatedNotes (updateOrderStatus sendAutomatedStatusNotification demoDB
        "o1" OrderStatus.received (some "Left at door")).2 =
      some "Left at door" ∧
    strIncludes "Left at door" "Customer requested discreet packaging" =
      false := by
  decide

/-- C5 as amended: only the admin path is append-only - a successful
updateOrderStatusAdmin keeps the order's earlier notes as a segment of the
new notes value (the new admin log entry is prepended) - while a successful
customer-path update with truthy notes replaces the notes column with
exactly the notes argument. -/
theorem c5_amended_notes_handling :
    (∀ (nowIso : String) (db : DB) (orderId : String)
        (newStatus : OrderStatus) (adminNotes adminUserId : Option String)
        (o : Order) (db2 : DB) (res : AdminUpdateResult),
        findOrder db orderId = some o →
        updateOrderStatusAdmin nowIso db orderId newStatus adminNotes
            adminUserId = (db2, .ok res) →
        strIncludes (res.order.notes.getD "") (o.notes.getD "") = true) ∧
    (∀ (notify : Order → List OrderItemView → OrderStatus → Option String →
        Except String NotificationResult)
        (db : DB) (orderId : String) (status : OrderStatus)
        (notes : Option String) (o : Order) (u : UpdateResult),
        findOrder db orderId = some o → strTruthy notes = true →
        (updateOrderStatus notify db orderId status notes).2 = .ok (some u) →
        u.order.notes = notes) := by
  constructor
  · intro nowIso db orderId newStatus adminNotes adminUserId o db2 res hfind heq
    rw [updateOrderStatusAdmin] at heq
    rw [hfind] at heq
    by_cases hc : ((VALID_STATUS_TRANSITIONS o.status).contains newStatus) = true
    · simp only [hc, Bool.not_true, Bool.false_eq_true, if_false] at heq
      have h2 := congrArg (fun p => p.2) heq
      simp only [Except.ok.injEq] at h2
      rw [← h2]
      simp only [Option.getD_some]
      exact finalNotes_keeps_existing _ _
    · have hc2 : ((VALID_STATUS_TRANSITIONS o.status).contains newStatus) = false :=
        Bool.eq_false_iff.mpr hc
      simp only [hc2, Bool.not_false, if_true] at heq
      simp at heq
  · intro notify db orderId status notes o u hfind hnotes heq
    have hm := mem_ORDER_STATUSES status
    rw [updateOrderStatus] at heq
    simp only [hm, Bool.not_true, Bool.false_eq_true, if_false] at heq
    rw [hfind] at heq
    simp only [hnotes, if_true] at heq
    split at heq <;>
      simp only [Except.ok.injEq, Option.some.injEq] at heq <;>
      rw [← heq]

/-- The placed order moved to received with its original note kept. -/
def demoReceivedKeptOrder : Order :=
  { demoPlacedOrder with status := OrderStatus.received, notes := some "Customer requested discreet packaging" }

/-- The placed order moved to received with its note replaced. -/
def demoReceivedCallOrder : Order :=
  { demoPlacedOrder with status := OrderStatus.received, notes := some "call first" }

/-- Witness for C5 as amended: an admin transition placed to received with
no admin note leaves the earlier customer note as the whole log, and a
customer-path update (under a failing notifier) replaces the notes column
with the new note. -/
theorem c5_amended_witness :
    strIncludes "Customer requested discreet packaging"
        "Customer requested discreet packaging" = true ∧
    ({ order := demoReceivedCallOrder,
       automatedNotification := none } : UpdateResult).order.notes =
      some "call first" := by
  constructor
  · have h := c5_amended_notes_handling.1 "2024-01-01T12:00:00.000Z" demoDB2
      "o2" OrderStatus.received none none demoPlacedOrder
      ⟨[demoProduct], [demoReceivedKeptOrder], []⟩
      ⟨demoReceivedKeptOrder, OrderStatus.placed, "placed → received"⟩
      (by decide) (by decide)
    simpa using h
  · exact c5_amended_notes_handling.2
      (fun _ _ _ _ => .error "dispatch failed") demoDB2 "o2"
      OrderStatus.received (some "call first") demoPlacedOrder
      { order := demoReceivedCallOrder, automatedNotification := none }
      (by decide) (by decide) (by decide)

/-! ## C9: notification failure does not undo the status change -/

/-- C9. When the status write has succeeded and the notification step then
fails (a notifier that throws), the customer-path update still returns the
updated order with the new status, the new status is persisted in the
store, and the result carries no notification payload - the notification
outcome is reported separately from the successful status change (a
successful notification would appear as the automatedNotification field). -/
theorem c9_notification_failure_isolated :
    ∀ (notify : Order → List OrderItemView → OrderStatus → Option String →
        Except String NotificationResult)
      (db : DB) (orderId : String) (status : OrderStatus)
      (notes : Option String) (o : Order) (e : String),
      findOrder db orderId = some o →
      (∀ o2 its st n, notify o2 its st n = .error e) →
      custUpdatedStatus (updateOrderStatus notify db orderId status notes).2 =
        some status ∧
      (match (updateOrderStatus notify db orderId status notes).2 with
        | .ok (some u) => u.automatedNotification
        | _ => some (.mk false ⟨"", "", "", false⟩ ⟨"", "", "", none⟩ "")) =
        none ∧
      (findOrder (updateOrderStatus notify db orderId status notes).1
          orderId).map Order.status = some status := by
  intro notify db orderId status notes o e hfind hfail
  have hm := mem_ORDER_STATUSES status
  rw [updateOrderStatus]
  simp only [hm, Bool.not_true, Bool.false_eq_true, if_false]
  rw [hfind]
  simp only [hfail]
  refine ⟨rfl, trivial, ?_⟩
  simp only [findOrder]
  have h := find?_update_orders db.orders orderId
    { o with status := status, notes := if strTruthy notes = true then notes else o.notes }
    o hfind rfl
  rw [h]
  rfl

/-- Witness for C9: with a notifier that always throws, the delivered demo
order is still moved to cancelled, persisted, and returned without a
notification payload. -/
theorem c9_notification_failure_witness :
    custUpdatedStatus ((updateOrderStatus (fun _ _ _ _ => .error "boom")
        demoDB "o1" OrderStatus.cancelled none).2) =
      some OrderStatus.cancelled ∧
    (findOrder ((updateOrderStatus (fun _ _ _ _ => .error "boom")
        demoDB "o1" OrderStatus.cancelled none).1) "o1").map Order.status =
      some OrderStatus.cancelled := by
  have h := c9_notification_failure_isolated (fun _ _ _ _ => .error "boom")
    demoDB "o1" OrderStatus.cancelled none demoDeliveredOrder "boom"
    (by decide) (fun _ _ _ _ => rfl)
  exact ⟨h.1, h.2.2⟩

/-! ## Transaction-engine helper lemmas -/

/-- Rollback: whenever createOrder fails, the caller's store is returned
unchanged (precondition failures never reach the transaction; a throw
inside the transaction body discards its writes). -/
lemma createOrder_error_rollback (now : Int) (newOrderId : String)
    (nextItemId : Int) (db db2 : DB) (a : CreateOrderArgs) (e : String)
    (h : createOrder now newOrderId nextItemId db a = (db2, .error e)) :
    db2 = db := by
  simp only [createOrder] at h
  split at h
  · exact (congrArg Prod.fst h).symm
  · split at h
    · exact (congrArg Prod.fst h).symm
    · split at h
      · exact (congrArg Prod.fst h).symm
      · rw [runTransaction] at h
        split at h
        · exact absurd (congrArg Prod.snd h) (by simp)
        · exact (congrArg Prod.fst h).symm

/-- The stock-decrement loop writes only the products table. -/
lemma stockUpdateLoop_ok_tables :
    ∀ (items : List ReqItem) (db db3 : DB),
      stockUpdateLoop db items = .ok db3 →
      db3.orders = db.orders ∧ db3.orderItems = db.orderItems := by
  intro items
  induction items with
  | nil =>
    intro db db3 h
    rw [stockUpdateLoop] at h
    injection h with h2
    subst h2
    exact ⟨rfl, rfl⟩
  | cons it rest ih =>
    intro db db3 h
    rw [stockUpdateLoop] at h
    split at h
    · exact absurd h (by simp)
    · split at h
      · exact absurd h (by simp)
      · exact ih (condStockUpdate db it.productId it.quantity).1 db3 h

/-- A guarded conditional decrement keeps every stock non-negative. -/
lemma condStockUpdate_nonneg (db : DB) (pid qty : Int)
    (hinv : ∀ p ∈ db.products, 0 ≤ p.stock) :
    ∀ p ∈ (condStockUpdate db pid qty).1.products, 0 ≤ p.stock := by
  intro p hp
  simp only [condStockUpdate, List.mem_map] at hp
  obtain ⟨q, hq, rfl⟩ := hp
  by_cases hc : (q.id == pid) = true ∧ qty ≤ q.stock
  · simp only [if_pos hc]
    simpa using hc.2
  · simp only [if_neg hc]
    exact hinv q hq

/-- The stock-decrement loop keeps every stock non-negative. -/
lemma stockUpdateLoop_nonneg :
    ∀ (items : List ReqItem) (db db3 : DB),
      (∀ p ∈ db.products, 0 ≤ p.stock) →
      stockUpdateLoop db items = .ok db3 →
      ∀ p ∈ db3.products, 0 ≤ p.stock := by
  intro items
  induction items with
  | nil =>
    intro db db3 hinv h
    rw [stockUpdateLoop] at h
    injection h with h2
    subst h2
    exact hinv
  | cons it rest ih =>
    intro db db3 hinv h
    rw [stockUpdateLoop] at h
    split at h
    · exact absurd h (by simp)
    · split at h
      · exact absurd h (by simp)
      · exact ih (condStockUpdate db it.productId it.quantity).1 db3
          (condStockUpdate_nonneg db it.productId it.quantity hinv) h

/-- The item-validation loop pairs each requested item with a validation
entry holding that item's quantity. -/
lemma validateItemsTx_quantities :
    ∀ (items : List ReqItem) (db : DB) (vs : List ProductValidation),
      validateItemsTx db items = .ok vs →
      List.Forall₂
        (fun (it : ReqItem) (v : ProductValidation) =>
          v.requestedQuantity = it.quantity) items vs := by
  intro items
  induction items with
  | nil =>
    intro db vs h
    rw [validateItemsTx] at h
    injection h with h2
    subst h2
    exact List.Forall₂.nil
  | cons it rest ih =>
    intro db vs h
    rw [validateItemsTx] at h
    cases hfp : findProduct db it.productId with
    | none =>
      simp only [hfp] at h
      exact Except.noConfusion h
    | some product =>
      simp only [hfp] at h
      by_cases hact : (!product.isActive) = true
      · rw [if_pos hact] at h
        exact Except.noConfusion h
      · rw [if_neg hact] at h
        by_cases hstock : product.stock < it.quantity
        · rw [if_pos hstock] at h
          exact Except.noConfusion h
        · rw [if_neg hstock] at h
          cases hrec : validateItemsTx db rest with
          | error e =>
            simp only [hrec] at h
            exact Except.noConfusion h
          | ok vs2 =>
            simp only [hrec] at h
            injection h with h2
            subst h2
            exact List.Forall₂.cons rfl (ih _ _ hrec)

/-- The sum of the persisted totalPrice values of a list of order items. -/
def sumTotalPrice (its : List OrderItem) : ℚ :=
  (its.map OrderItem.totalPrice).sum

lemma foldl_add_map_sum (f : ProductValidation → ℚ) :
    ∀ (vs : List ProductValidation) (a : ℚ),
      vs.foldl (fun s v => s + f v) a = a + (vs.map f).sum := by
  intro vs
  induction vs with
  | nil => intro a; simp
  | cons v t ih => intro a; simp [ih, add_assoc]

/-- `calculatedTotal` as a mapped sum. -/
lemma calculatedTotal_eq_sum (vs : List ProductValidation) :
    calculatedTotal vs =
      (vs.map (fun v => (v.requestedQuantity : ℚ) * v.requestedUnitPrice)).sum := by
  rw [calculatedTotal, foldl_add_map_sum]
  simp

/-- The inserted order items carry exactly the recomputed transaction total. -/
lemma buildOrderItems_sumTotal :
    ∀ (items : List ReqItem) (vs : List ProductValidation) (oid : String)
      (base : Int),
      List.Forall₂
        (fun (it : ReqItem) (v : ProductValidation) =>
          v.requestedQuantity = it.quantity) items vs →
      sumTotalPrice (buildOrderItems oid base items vs) = calculatedTotal vs := by
  intro items vs oid base h
  induction h generalizing base with
  | nil => simp [buildOrderItems, sumTotalPrice, calculatedTotal_eq_sum]
  | @cons a b l1 l2 hab htail ih =>
    rw [buildOrderItems]
    rw [calculatedTotal_eq_sum]
    simp only [sumTotalPrice, List.map_cons, List.sum_cons]
    rw [← calculatedTotal_eq_sum, ← sumTotalPrice]
    rw [ih (base + 1), hab]

/-! ## C6: total mismatch is a hard failure with no persisted state -/

/-- C6. When the three tokens validate and the per-item validation succeeds
but the recomputed total (quantity times database price, summed) differs
from the declared total by more than 0.01, createOrder fails with the
total-mismatch message naming the calculated and the provided amount, and
the store is returned unchanged: no order, no order items, and every
product's stock as before. -/
theorem c6_total_mismatch_hard_failure :
    ∀ (now : Int) (newOrderId : String) (nextItemId : Int) (db : DB)
      (a : CreateOrderArgs) (vs : List ProductValidation),
      (validateLocationVerification now a.verifiedLocationId).valid = true →
      (validateInventoryReservation now a.inventoryReservationId).valid = true →
      (validatePaymentTransaction now a.paymentTransactionId).valid = true →
      validateItemsTx db a.orderItems = .ok vs →
      (1 : ℚ) / 100 < |calculatedTotal vs - a.totalAmount| →
      createOrder now newOrderId nextItemId db a =
        (db, .error (totalMismatchMsg (calculatedTotal vs) a.totalAmount)) := by
  intro now nid base db a vs h1 h2 h3 hv hgt
  have hbody : createOrderTxBody nid base a db =
      .error (totalMismatchMsg (calculatedTotal vs) a.totalAmount) := by
    simp only [createOrderTxBody, hv]
    rw [if_pos hgt]
  simp only [createOrder, h1, h2, h3, Bool.not_true, Bool.false_eq_true,
    if_false, runTransaction, hbody]

/-! Fixtures for the transaction claims. -/

/-- A clock half an hour after the demo tokens were issued. -/
def demoNow : Int := civilMs 2024 1 1 12 30 0

/-- createOrder arguments ordering two units of product 1 with fresh
tokens, parameterized by the declared total. -/
def demoArgs (t : ℚ) : CreateOrderArgs :=
  { telegramUserId := "u1", telegramUsername := none, customerName := "Alice",
    deliveryAddress := "1 Main St", phoneNumber := none,
    orderItems := [⟨1, 2, 10⟩], totalAmount := t, notes := none,
    verifiedLocationId := "LOC_20240101_120000_ABCDEF12",
    inventoryReservationId := "INV_20240101_120000_ABCDEF12",
    paymentTransactionId := "TXN_20240101_120000_ABCDEF12" }

/-- The validation entry the demo order produces for product 1. -/
def demoValidation : ProductValidation :=
  { id := 1, name := "Premium Lube", description := "Water-based formula",
    price := 10, stock := 5, isActive := true, requestedQuantity := 2,
    requestedUnitPrice := 10 }

/-- Witness for C6: declaring 25.00 against a recomputed 20.00 fails with
the message naming both amounts, leaving the demo store untouched. -/
theorem c6_total_mismatch_witness :
    createOrder demoNow "ord-1" 1 demoDB (demoArgs 25) =
      (demoDB,
        .error "Total amount mismatch. Calculated: $20.00, Provided: $25.00") := by
  have h := c6_total_mismatch_hard_failure demoNow "ord-1" 1 demoDB
    (demoArgs 25) [demoValidation] (by with_unfolding_all decide)
    (by with_unfolding_all decide) (by with_unfolding_all decide)
    (by with_unfolding_all decide) (by with_unfolding_all decide)
  exact h.trans (by with_unfolding_all decide)

/-! ## C7: per-item stock decrement must affect exactly one row -/

/-- C7. Inside the transaction's decrement loop, a conditional stock update
that affects zero rows aborts the loop with the fatal zero-rows message and
one that affects more than one row aborts it with the integrity message;
and whenever createOrder fails - in particular on these aborts - the
caller's store is returned unchanged, so no order, order item or stock
change is persisted. -/
theorem c7_stock_update_row_count_guard :
    (∀ (db : DB) (it : ReqItem) (rest : List ReqItem),
      (condStockUpdate db it.productId it.quantity).2.length = 0 →
      stockUpdateLoop db (it :: rest) = .error (criticalZeroMsg it.productId)) ∧
    (∀ (db : DB) (it : ReqItem) (rest : List ReqItem),
      1 < (condStockUpdate db it.productId it.quantity).2.length →
      stockUpdateLoop db (it :: rest) = .error (criticalMultiMsg it.productId)) ∧
    (∀ (now : Int) (newOrderId : String) (nextItemId : Int) (db db2 : DB)
      (a : CreateOrderArgs) (e : String),
      createOrder now newOrderId nextItemId db a = (db2, .error e) →
      db2 = db) := by
  refine ⟨?_, ?_, ?_⟩
  · intro db it rest h
    simp [stockUpdateLoop, h]
  · intro db it rest h
    have h0 : ((condStockUpdate db it.productId it.quantity).2.length == 0) =
        false := by
      simp only [beq_eq_false_iff_ne, ne_eq]
      omega
    simp [stockUpdateLoop, h0, h]
  · intro now nid base db db2 a e h
    exact createOrder_error_rollback now nid base db db2 a e h

/-- A corrupt catalog: two rows share product id 1 (the integrity case). -/
def demoCorruptDB : DB :=
  ⟨[demoProduct, { demoProduct with stock := 7 }], [], []⟩

/-- Witness for C7: with stock 5 a requested quantity of 9 updates zero
rows and aborts; in the corrupt store the same conditional update touches
two rows and aborts; and a failing createOrder hands back the untouched
store. -/
theorem c7_stock_update_witness :
    stockUpdateLoop demoDB [⟨1, 9, 10⟩] = .error (criticalZeroMsg 1) ∧
    stockUpdateLoop demoCorruptDB [⟨1, 2, 10⟩] =
      .error (criticalMultiMsg 1) ∧
    (createOrder demoNow "ord-1" 1 demoDB (demoArgs 25)).1 = demoDB := by
  refine ⟨?_, ?_, ?_⟩
  · exact c7_stock_update_row_count_guard.1 demoDB ⟨1, 9, 10⟩ []
      (by with_unfolding_all decide)
  · exact c7_stock_update_row_count_guard.2.1 demoCorruptDB ⟨1, 2, 10⟩ []
      (by with_unfolding_all decide)
  · exact c7_stock_update_row_count_guard.2.2 demoNow "ord-1" 1 demoDB
      (createOrder demoNow "ord-1" 1 demoDB (demoArgs 25)).1 (demoArgs 25)
      "Total amount mismatch. Calculated: $20.00, Provided: $25.00"
      (by with_unfolding_all decide)

/-! ## C2: persisted total versus sum of persisted item totals -/

/-- The order row persisted by the 20.005 counterexample call. -/
def demoCexOrder : Order :=
  { id := "ord-1", telegramUserId := "u1", telegramUsername := none,
    customerName := some "Alice", deliveryAddress := "1 Main St",
    phoneNumber := none, totalAmount := 4001 / 200, status := .placed,
    paymentStatus := "pending", notes := none }

/-- The single order-item row persisted by that call. -/
def demoCexItem : OrderItem :=
  { id := 1, orderId := "ord-1", productId := 1, quantity := 2,
    unitPrice := 10, totalPrice := 20 }

/-- The store after that call: stock decremented 5 to 3, the order and its
item appended. -/
def demoCexDB3 : DB :=
  ⟨[{ demoProduct with stock := 3 }], [demoDeliveredOrder, demoCexOrder],
    [demoCexItem]⟩

/-- Counterexample to C2: a declared total of 20.005 passes the 0.01
tolerance check against the recomputed 20.00, the call succeeds, the order
persists the declared 20.005 as its totalAmount, and the persisted items
sum to 20.00 - so the persisted total does not exactly equal the items'
sum. -/
theorem c2_counterexample_exact_total_equality :
    createOrder demoNow "ord-1" 1 demoDB (demoArgs (4001 / 200)) =
      (demoCexDB3, .ok (demoCexOrder, [demoCexItem])) ∧
    demoCexOrder.totalAmount = 4001 / 200 ∧
    sumTotalPrice [demoCexItem] = 20 ∧ ((4001 : ℚ) / 200) ≠ 20 := by
  refine ⟨?_, rfl, ?_, ?_⟩
  · set_option maxRecDepth 8000 in with_unfolding_all rfl
  · set_option maxRecDepth 8000 in with_unfolding_all decide
  · set_option maxRecDepth 8000 in with_unfolding_all decide

/-- C2 as amended: on every successful createOrder the persisted order's
totalAmount (the declared total) differs from the sum of the persisted
order items' totalPrice values by at most 0.01, and the order and its items
are in the returned store. -/
theorem c2_amended_total_within_tolerance :
    ∀ (now : Int) (newOrderId : String) (nextItemId : Int) (db db2 : DB)
      (a : CreateOrderArgs) (o : Order) (its : List OrderItem),
      createOrder now newOrderId nextItemId db a = (db2, .ok (o, its)) →
      |o.totalAmount - sumTotalPrice its| ≤ 1 / 100 ∧
      o ∈ db2.orders ∧ ∀ it ∈ its, it ∈ db2.orderItems := by
  intro now nid base db db2 a o its h
  simp only [createOrder] at h
  split at h
  · exact absurd (congrArg Prod.snd h) (by simp)
  · split at h
    · exact absurd (congrArg Prod.snd h) (by simp)
    · split at h
      · exact absurd (congrArg Prod.snd h) (by simp)
      · rw [runTransaction] at h
        split at h
        · next db2x r heq =>
          rw [Prod.mk.injEq] at h
          obtain ⟨hdb, hr⟩ := h
          injection hr with hr
          subst hdb
          subst hr
          simp only [createOrderTxBody] at heq
          cases hv : validateItemsTx db a.orderItems with
          | error e =>
            simp only [hv] at heq
            exact Except.noConfusion heq
          | ok vs =>
            simp only [hv] at heq
            by_cases hgt : (1 : ℚ) / 100 < |calculatedTotal vs - a.totalAmount|
            · rw [if_pos hgt] at heq
              exact Except.noConfusion heq
            · rw [if_neg hgt] at heq
              split at heq
              · exact Except.noConfusion heq
              · next db3 hloop =>
                injection heq with heq
                rw [Prod.mk.injEq] at heq
                obtain ⟨hdb3, hpair⟩ := heq
                rw [Prod.mk.injEq] at hpair
                obtain ⟨ho, hits⟩ := hpair
                subst hdb3
                subst ho
                subst hits
                have htab := stockUpdateLoop_ok_tables a.orderItems _ _ hloop
                refine ⟨?_, ?_, ?_⟩
                · have hsum := buildOrderItems_sumTotal a.orderItems vs nid base
                    (validateItemsTx_quantities a.orderItems db vs hv)
                  rw [hsum]
                  rw [abs_sub_comm]
                  exact le_of_not_lt hgt
                · rw [htab.1]
                  exact List.mem_append_right _ (List.mem_singleton_self _)
                · intro it hit
                  rw [htab.2]
                  exact List.mem_append_right _ hit
        · exact absurd (congrArg Prod.snd h) (by simp)

/-- Witness for C2 as amended: the 20.005 call's persisted total is within
0.01 of its items' 20.00 sum, and order and item are in the store. -/
theorem c2_amended_witness :
    |demoCexOrder.totalAmount - sumTotalPrice [demoCexItem]| ≤ 1 / 100 ∧
    demoCexOrder ∈ demoCexDB3.orders ∧
    ∀ it ∈ [demoCexItem], it ∈ demoCexDB3.orderItems := by
  exact c2_amended_total_within_tolerance demoNow "ord-1" 1 demoDB demoCexDB3
    (demoArgs (4001 / 200)) demoCexOrder [demoCexItem]
    (by set_option maxRecDepth 8000 in with_unfolding_all rfl)

/-! ## C3: the order of createOrder's precondition checks -/

/-- Counterexample to C4: the catalog tool's stock-set persists a negative
value verbatim - updateProductStock with newStock -5 leaves product 1 with
stock -5 in the store and returns that row. -/
theorem c4_counterexample_negative_stock_set :
    (updateProductStock demoDB 1 (-5)).1.products.map Product.stock =
      [-5] ∧
    ((updateProductStock demoDB 1 (-5)).2.map Product.stock) = some (-5) ∧
    ((-5 : Int) < 0) := by
  refine ⟨by decide, by decide, by decide⟩

/-- A successful createOrder keeps every stock non-negative (the conditional
decrement is guarded by stock at least the quantity). -/
lemma createOrder_ok_stock_nonneg (now : Int) (nid : String) (base : Int)
    (db db2 : DB) (a : CreateOrderArgs) (o : Order) (its : List OrderItem)
    (hinv : ∀ p ∈ db.products, 0 ≤ p.stock)
    (h : createOrder now nid base db a = (db2, .ok (o, its))) :
    ∀ p ∈ db2.products, 0 ≤ p.stock := by
  simp only [createOrder] at h
  split at h
  · exact absurd (congrArg Prod.snd h) (by simp)
  · split at h
    · exact absurd (congrArg Prod.snd h) (by simp)
    · split at h
      · exact absurd (congrArg Prod.snd h) (by simp)
      · rw [runTransaction] at h
        split at h
        · next db2x r heq =>
          rw [Prod.mk.injEq] at h
          obtain ⟨hdb, _⟩ := h
          subst hdb
          simp only [createOrderTxBody] at heq
          cases hv : validateItemsTx db a.orderItems with
          | error e =>
            simp only [hv] at heq
            exact Except.noConfusion heq
          | ok vs =>
            simp only [hv] at heq
            by_cases hgt : (1 : ℚ) / 100 <
                |calculatedTotal vs - a.totalAmount|
            · rw [if_pos hgt] at heq
              exact Except.noConfusion heq
            · rw [if_neg hgt] at heq
              split at heq
              · exact Except.noConfusion heq
              · next db3 hloop =>
                injection heq with heq
                rw [Prod.mk.injEq] at heq
                obtain ⟨hdb3, _⟩ := heq
                subst hdb3
                refine stockUpdateLoop_nonneg a.orderItems _ _ ?_ hloop
                exact hinv
        · exact absurd (congrArg Prod.snd h) (by simp)

/-- C4 as amended: order creation preserves the stock-non-negative
invariant on every outcome (the decrement is guarded and failures roll
back), but the admin stock-set writes its argument verbatim, so it
preserves the invariant only when the given newStock is non-negative. -/
theorem c4_amended_stock_invariant :
    (∀ (now : Int) (nid : String) (base : Int) (db db2 : DB)
        (a : CreateOrderArgs) (r : Except String (Order × List OrderItem)),
        (∀ p ∈ db.products, 0 ≤ p.stock) →
        createOrder now nid base db a = (db2, r) →
        ∀ p ∈ db2.products, 0 ≤ p.stock) ∧
    (∀ (db : DB) (pid newStock : Int), 0 ≤ newStock →
        (∀ p ∈ db.products, 0 ≤ p.stock) →
        ∀ p ∈ (updateProductStock db pid newStock).1.products, 0 ≤ p.stock) := by
  constructor
  · intro now nid base db db2 a r hinv h
    cases r with
    | error e =>
      have hdb := createOrder_error_rollback now nid base db db2 a e h
      rw [hdb]
      exact hinv
    | ok pr =>
      obtain ⟨o, its⟩ := pr
      exact createOrder_ok_stock_nonneg now nid base db db2 a o its hinv h
  · intro db pid ns hns hinv p hp
    simp only [updateProductStock, List.mem_map] at hp
    obtain ⟨q, hq, rfl⟩ := hp
    by_cases hc : (q.id == pid) = true
    · simp only [if_pos hc]
      exact hns
    · simp only [if_neg hc]
      exact hinv q hq

/-- Witness for C4 as amended: the successful 20.005 order leaves stock 3,
non-negative, and a stock-set to 4 keeps the invariant. -/
theorem c4_amended_witness :
    (∀ p ∈ demoCexDB3.products, 0 ≤ p.stock) ∧
    (∀ p ∈ (updateProductStock demoDB 1 4).1.products, 0 ≤ p.stock) := by
  constructor
  · exact c4_amended_stock_invariant.1 demoNow "ord-1" 1 demoDB demoCexDB3
      (demoArgs (4001 / 200)) (.ok (demoCexOrder, [demoCexItem]))
      (by decide) (by set_option maxRecDepth 8000 in with_unfolding_all rfl)
  · exact c4_amended_stock_invariant.2 demoDB 1 4 (by decide) (by decide)
